import Mathlib

/-!
Shallow embedding of `src/app.py` and `src/integracao.py` from the
repository `felipeOliveira13/teste-estudos`: a Streamlit dashboard with a
credential store (bcrypt + PostgreSQL `users` table) and a TTL-cached
fetch of a Google-Sheets price table, followed by normalization,
filtering and group-by aggregation.

Machine/library modelling choices, stated once:
* Python strings are Lean `String`s; the `.lower()` of the source is
  modelled on ASCII (`Char.toLower`), which agrees with Python on the
  ASCII emails the application handles.
* pandas numeric values are modelled as `ℚ` (the inputs of the claims are all
  exactly representable); a missing/unparsable numeric (`NaN`) is `none`.
* the external collaborators (bcrypt, psycopg2, gspread, `st.cache_data`)
  are modelled by explicit executable state: the database is a list of
  user records, the remote fetch is a parameter recording whether the
  network call succeeded, and the cache is an optional `(value, time)`
  entry with the `ttl=600` of the source.
-/

namespace TesteEstudos

/-! ### Sheet-data normalization (`load_data_from_sheet`, app.py lines 143-150) -/

/-- One character of the regex class `[R$.,]` in
the replace call of the price column (delete every match of the class). -/
def isStripChar (c : Char) : Bool :=
  c = 'R' || c = '$' || c = '.' || c = ','

/-- Model of the replace call on one price cell: delete every occurrence
of a character of the regex class. -/
def stripPriceChars (s : String) : String :=
  ⟨s.data.filter (fun c => !isStripChar c)⟩

/-- Whitespace stripped by `pd.to_numeric` around a numeric literal. -/
def isSpaceChar (c : Char) : Bool :=
  c = ' ' || c = '\t' || c = '\n' || c = '\r'

/-- Strip leading and trailing whitespace from a character list. -/
def trimChars (cs : List Char) : List Char :=
  ((cs.dropWhile isSpaceChar).reverse.dropWhile isSpaceChar).reverse

/-- Value of a digit string, most significant first (`""` counts as 0;
callers guard emptiness). -/
def natOfDigits (cs : List Char) : Nat :=
  cs.foldl (fun a c => a * 10 + (c.toNat - 48)) 0

/-- Parse an unsigned decimal numeral (digits, optionally a point and more
digits), as `pd.to_numeric` accepts for the data of this app; anything
else is `none` (pandas: NaN under coercing errors). -/
def parseUnsignedDec (cs : List Char) : Option ℚ :=
  let intPart := cs.takeWhile (·.isDigit)
  let rest := cs.dropWhile (·.isDigit)
  match rest with
  | [] => if intPart.isEmpty then none else some (natOfDigits intPart)
  | '.' :: frac =>
      if frac.all (·.isDigit) && !(intPart.isEmpty && frac.isEmpty)
      then some ((natOfDigits intPart : ℚ) + (natOfDigits frac : ℚ) / (10 : ℚ) ^ frac.length)
      else none
  | _ => none

/-- Model of `pd.to_numeric` with coercing errors on one cell: trim
whitespace, allow a sign, parse a decimal numeral; failure is `none`
(NaN). -/
def toNumeric (s : String) : Option ℚ :=
  match trimChars s.data with
  | '-' :: cs => (parseUnsignedDec cs).map Neg.neg
  | '+' :: cs => parseUnsignedDec cs
  | cs => parseUnsignedDec cs

/-- Model of `numpy.astype` to int on a finite float: truncation toward
zero. -/
def truncQ (q : ℚ) : Int :=
  Int.tdiv q.num (q.den : Int)

/-- Model of the Ano-column coercion — numeric coercion, `fillna(0)`,
cast to int — on one cell (app.py line 144 / integracao.py line 71). -/
def coerceYear (s : String) : Int :=
  match toNumeric s with
  | some q => truncQ q
  | none => 0

/-- The Preço-Numérico column value of one cell (app.py lines 147-150):
strip the class, then numeric coercion with coercing errors. -/
def parsePrice (s : String) : Option ℚ :=
  toNumeric (stripPriceChars s)

/-- A row as returned by `worksheet.get_all_records()`: the columns the
program reads, as strings. -/
structure RawRow where
  modelo : String
  ano : String
  preco : String
deriving DecidableEq, Repr

/-- A row after the in-`load_data_from_sheet` normalization: `Ano` coerced
to int, the original price column kept, the numeric price added. -/
structure Row where
  modelo : String
  ano : Int
  precoStr : String
  precoNumerico : Option ℚ
deriving DecidableEq, Repr

/-- The per-row effect of lines 144-150: no row is dropped or reordered,
each gains the coerced year and the parsed numeric price. -/
def normalizeRow (r : RawRow) : Row :=
  { modelo := r.modelo
    ano := coerceYear r.ano
    precoStr := r.preco
    precoNumerico := parsePrice r.preco }

/-- The whole-dataframe normalization of `load_data_from_sheet`. -/
def normalizeRows (rs : List RawRow) : List Row :=
  rs.map normalizeRow

/-! ### The TTL cache over `load_data_from_sheet`
(`@st.cache_data(ttl=600)`, app.py lines 136-161, 346-351) -/

/-- Outcome of the gspread network interaction inside the `try` block:
either the rows of `get_all_records()`, or the `KeyError` for a missing
`gcp_service_account` secret, or any other exception. -/
inductive FetchOutcome where
  | ok (rows : List RawRow)
  | configMissing
  | err (msg : String)
deriving DecidableEq, Repr

/-- The body of `load_data_from_sheet`: on success normalize the fetched
rows; on `KeyError` or any other exception, the handlers return
`pd.DataFrame()` — an empty frame, never a partial one. No exception
escapes the body. -/
def loadBody : FetchOutcome → List Row
  | .ok rows => normalizeRows rows
  | .configMissing => []
  | .err _ => []

/-- The `ttl=600` of the `st.cache_data` decorator. -/
def ttl : Nat := 600

/-- State of `st.cache_data` for the zero-argument `load_data_from_sheet`:
at most one entry, the memoized return value and its store time
(seconds). -/
structure CacheState where
  entry : Option (List Row × Nat)
deriving DecidableEq, Repr

/-- Process start: nothing cached. -/
def initialCache : CacheState := ⟨none⟩

/-- Whether the cached entry is still served at time `now`:
`st.cache_data` serves an entry while its age is below `ttl`. -/
def cacheFresh (st : CacheState) (now : Nat) : Bool :=
  match st.entry with
  | some (_, t) => now < t + ttl
  | none => false

/-- What one call to the decorated `load_data_from_sheet` produces: the
returned rows, the cache state after the call, and how many times the
body (hence the remote fetch attempt) ran. -/
structure CallResult where
  rows : List Row
  state : CacheState
  fetches : Nat
deriving DecidableEq, Repr

/-- One call to the decorated `load_data_from_sheet` at time `now`, with
`f` the outcome the network would produce: a fresh entry is returned with
no body run; otherwise the body runs once and its return value — also
the empty frame produced by the exception handlers — is stored. -/
def getRows (st : CacheState) (now : Nat) (f : FetchOutcome) : CallResult :=
  match st.entry with
  | some (v, t) =>
      if now < t + ttl then ⟨v, st, 0⟩
      else ⟨loadBody f, ⟨some (loadBody f, now)⟩, 1⟩
  | none => ⟨loadBody f, ⟨some (loadBody f, now)⟩, 1⟩

/-- Model of `load_data_from_sheet.clear` (the "Recarregar Dados" button,
app.py lines 346-351): drop the cached entry. -/
def invalidate (_ : CacheState) : CacheState := ⟨none⟩

/-! ### Credential store (app.py lines 42-79) and its UI callers
(lines 173-241) -/

/-- Model of the external bcrypt collaborator: `bcrypt.hashpw` tags the
password with the per-call salt, so that `bcrypt.checkpw` succeeds on
exactly the hashed password — the contract of the library, which is
external to this repository. -/
structure BHash where
  salt : Nat
  digest : String
deriving DecidableEq, Repr

/-- Model of `bcrypt.hashpw` applied to a password and a salt. -/
def bcryptHashpw (password : String) (salt : Nat) : BHash :=
  ⟨salt, password⟩

/-- Model of `bcrypt.checkpw`: re-hash under the stored salt and
compare. -/
def bcryptCheckpw (password : String) (h : BHash) : Bool :=
  bcryptHashpw password h.salt = h

/-- The function `hash_password` (app.py lines 42-45): hash under a
fresh salt. -/
def hash_password (password : String) (salt : Nat) : BHash :=
  bcryptHashpw password salt

/-- The function `verify_password` (app.py lines 47-49). -/
def verify_password (password : String) (h : BHash) : Bool :=
  bcryptCheckpw password h

/-- One record of the `users` table: email, password hash, name (the id
column is the list position). -/
structure UserRec where
  email : String
  passwordHash : BHash
  name : String
deriving DecidableEq, Repr

/-- The `users` table, insertion-ordered. -/
structure DB where
  users : List UserRec
deriving DecidableEq, Repr

/-- How the SELECT of `get_user` can go at the store: the query runs, or
psycopg2 raises. -/
inductive LookupOutcome where
  | normal
  | dbError (msg : String)
deriving DecidableEq, Repr

/-- The function `get_user` (app.py lines 52-61): `None` without a
connection, `None`
when the query raises (the `except` branch), else the first row whose
`email` matches, `None` when there is none. -/
def get_user (conn : Bool) (db : DB) (email : String) (out : LookupOutcome) :
    Option UserRec :=
  if !conn then none
  else match out with
    | .dbError _ => none
    | .normal => db.users.find? (fun u => u.email = email)

/-- Return value of `create_user` (app.py lines 63-79): `True` on success,
else the error strings of the three handlers. -/
inductive CreateResult where
  | success
  | noConn
  | duplicate
  | otherError (msg : String)
deriving DecidableEq, Repr

/-- The function `create_user` (app.py lines 63-79): no validation of its
own; hash the
password, INSERT; a uniqueness violation on `email` raises
`IntegrityError`, which is rolled back ("Email já cadastrado") leaving
the table unchanged; commit on success. -/
def create_user (conn : Bool) (db : DB) (email password name : String)
    (salt : Nat) : CreateResult × DB :=
  if !conn then (.noConn, db)
  else if db.users.any (fun u => u.email = email) then (.duplicate, db)
  else (.success, ⟨db.users ++ [⟨email, hash_password password salt, name⟩]⟩)

/-- Model of the lower-casing of the email text inputs (app.py lines 182,
217), ASCII as the emails of the application are. -/
def toLowerStr (s : String) : String :=
  ⟨s.data.map Char.toLower⟩

/-- The constant `DOMINIOS_PERMITIDOS` (app.py line 169). -/
def DOMINIOS_PERMITIDOS : List String := ["botafogo.com.br", "gmail.com"]

/-- Model of the endswith test of one domain. -/
def endsWithModel (s sfx : String) : Bool :=
  List.isSuffixOf sfx.data s.data

/-- The allow-list test: some configured domain matches as a suffix after
the at sign (app.py line 224). -/
def allowedDomain (email : String) : Bool :=
  DOMINIOS_PERMITIDOS.any (fun d => endsWithModel email ("@" ++ d))

/-- What `render_register` (app.py lines 207-241) shows for one submitted
form. -/
inductive RegisterUIResult where
  | noService
  | domainError
  | fieldsError
  | confirmError
  | lengthError
  | created (r : CreateResult)
deriving DecidableEq, Repr

/-- The submit path of `render_register` (app.py lines 211-241): bail out
without a connection; lower-case the email at input; then, in the
order of the source, the domain check, the all-fields-filled check, the
confirmation check, the minimum-length check, and only then
`create_user`. -/
def render_register_submit (conn : Bool) (db : DB)
    (name email password passwordConfirm : String) (salt : Nat) :
    RegisterUIResult × DB :=
  if !conn then (.noService, db)
  else
    let email := toLowerStr email
    if !allowedDomain email then (.domainError, db)
    else if name = "" || email = "" || password = "" || passwordConfirm = ""
      then (.fieldsError, db)
    else if password ≠ passwordConfirm then (.confirmError, db)
    else if password.length < 6 then (.lengthError, db)
    else
      let r := create_user conn db email password name salt
      (.created r.1, r.2)

/-- What `render_login` (app.py lines 173-201) shows for one submitted
form; the source renders `wrongPassword` and `notFound` with the same
message but reaches them by distinct branches. -/
inductive LoginResult where
  | noService
  | emptyFields
  | success (email name : String)
  | wrongPassword
  | notFound
deriving DecidableEq, Repr

/-- The submit path of `render_login` (app.py lines 177-199): bail out
without
a connection; lower-case the email at input; require both fields; then
`get_user` and `verify_password`. -/
def render_login_submit (conn : Bool) (db : DB) (email password : String)
    (out : LookupOutcome) : LoginResult :=
  if !conn then .noService
  else
    let email := toLowerStr email
    if email = "" || password = "" then .emptyFields
    else match get_user conn db email out with
      | some u =>
          if verify_password password u.passwordHash
          then .success u.email u.name
          else .wrongPassword
      | none => .notFound

/-! ### Derived aggregation (`df_chart`, app.py lines 314-315 /
integracao.py lines 151-152) -/

/-- Lexicographic order on code points, as Python compares the `Modelo`
strings. -/
def lexLe : List Char → List Char → Bool
  | [], _ => true
  | _ :: _, [] => false
  | a :: as, b :: bs =>
      if a.toNat < b.toNat then true
      else if b.toNat < a.toNat then false
      else lexLe as bs

/-- Comparison of strings by code points. -/
def strLe (s t : String) : Bool :=
  lexLe s.data t.data

/-- Insert a string into a sorted list (`groupby` sorts its keys). -/
def insertSorted (s : String) : List String → List String
  | [] => [s]
  | t :: ts => if strLe s t then s :: t :: ts else t :: insertSorted s ts

/-- Sort a list of strings. -/
def sortStrings (l : List String) : List String :=
  l.foldr insertSorted []

/-- The non-null numeric-price values of the rows of one `Modelo`
group: pandas `mean` skips NaN. -/
def groupPrices (rows : List Row) (m : String) : List ℚ :=
  (rows.filter (fun r => r.modelo = m)).filterMap (·.precoNumerico)

/-- pandas `Series.mean`: the mean of the non-null values, NaN (`none`)
when there are none. -/
def meanOpt (l : List ℚ) : Option ℚ :=
  if l.isEmpty then none else some (l.sum / (l.length : ℚ))

/-- The chart aggregation: group the filtered rows by `Modelo`, mean of
the numeric price (app.py lines 314-315): one output row per distinct
`Modelo`, keys
sorted, value the NaN-skipping mean of the group. -/
def df_chart (rows : List Row) : List (String × Option ℚ) :=
  (sortStrings (rows.map (·.modelo)).dedup).map
    (fun m => (m, meanOpt (groupPrices rows m)))

/-! ### C1 — price parsing -/

/-- C1, counterexample: the claim says `"R$ 1.234,56"` parses to the
numeric `1234.56`; the regex class `[R$.,]` also deletes the decimal
comma, so the source parses it to `123456`, which is not `1234.56`
(`= 30864/25`). -/
theorem c1_price_counterexample :
    parsePrice "R$ 1.234,56" = some 123456 ∧
    (123456 : ℚ) ≠ 30864 / 25 := by
  constructor
  · decide
  · norm_num

/-- C1, amended: `"R$ 1.234,56"` parses to the numeric `123456` (every
`R`, `$`, `.` and `,` is deleted before coercion, so the decimal part is
concatenated onto the integer part); a string with no parsable number
such as `"N/A"` yields a null numeric price; and normalization retains
every row (same count, same position, original price string kept). -/
theorem c1_price_parsing :
    parsePrice "R$ 1.234,56" = some 123456 ∧
    parsePrice "N/A" = none ∧
    (∀ rs : List RawRow, (normalizeRows rs).length = rs.length) ∧
    (∀ r : RawRow, (normalizeRow r).precoStr = r.preco) := by
  refine ⟨by decide, by decide, ?_, fun r => rfl⟩
  intro rs
  simp [normalizeRows]

/-! ### C9 — year coercion -/

/-- C9: the year normalization is a total function: `"2021"` is coerced
to `2021`, the empty string to `0`, and any string the numeric coercion
cannot parse (such as `"abc"`) to `0`. -/
theorem c9_year_coercion :
    coerceYear "2021" = 2021 ∧
    coerceYear "" = 0 ∧
    coerceYear "abc" = 0 ∧
    (∀ s : String, toNumeric s = none → coerceYear s = 0) := by
  refine ⟨by decide, by decide, by decide, ?_⟩
  intro s h
  simp [coerceYear, h]

/-- C9, witness: the totality clause applied at the concrete non-numeric
input `"xyz"`. -/
theorem c9_year_coercion_witness :
    coerceYear "xyz" = 0 :=
  c9_year_coercion.2.2.2 "xyz" (by decide)

/-! ### C2 — behaviour of a failed fetch -/

/-- C2, counterexample: with a previous snapshot cached at time 0 and
expired at time 600, a failed fetch does not return the previous
snapshot (the handler returns the empty frame), and the empty result is
cached as fresh, so the next call within the TTL performs no fetch —
the cache does not remain stale. -/
theorem c2_failure_counterexample :
    (getRows ⟨some ([⟨"Onix", 2021, "R$ 100", some 100⟩], 0)⟩ ttl
        (.err "network down")).rows
      ≠ [⟨"Onix", 2021, "R$ 100", some 100⟩] ∧
    cacheFresh (getRows ⟨some ([⟨"Onix", 2021, "R$ 100", some 100⟩], 0)⟩ ttl
        (.err "network down")).state ttl = true ∧
    (getRows (getRows ⟨some ([⟨"Onix", 2021, "R$ 100", some 100⟩], 0)⟩ ttl
        (.err "network down")).state (ttl + 1) (.err "again")).fetches = 0 := by
  refine ⟨?_, by decide, by decide⟩
  decide

/-- C2, amended: when the cache is stale and the fetch fails, the call
returns the empty snapshot — never the previous one, never a partial
one — and the empty snapshot is cached at the call time, so a further
call within the TTL window performs zero fetches and still returns the
empty snapshot instead of retrying. -/
theorem c2_failed_fetch (st : CacheState) (now laterNow : Nat)
    (msg : String) (f : FetchOutcome)
    (hstale : cacheFresh st now = false)
    (hlater : laterNow < now + ttl) :
    (getRows st now (.err msg)).rows = [] ∧
    (getRows st now (.err msg)).state = ⟨some ([], now)⟩ ∧
    (getRows st now (.err msg)).fetches = 1 ∧
    (getRows (getRows st now (.err msg)).state laterNow f).fetches = 0 ∧
    (getRows (getRows st now (.err msg)).state laterNow f).rows = [] := by
  obtain ⟨entry⟩ := st
  cases entry with
  | none =>
      refine ⟨rfl, rfl, rfl, ?_, ?_⟩ <;> simp [getRows, loadBody, hlater]
  | some vt =>
      obtain ⟨v, t⟩ := vt
      simp only [cacheFresh, decide_eq_false_iff_not] at hstale
      refine ⟨?_, ?_, ?_, ?_, ?_⟩ <;>
        simp [getRows, loadBody, hstale, hlater]

/-- C2, witness: the amended behaviour at the initial (stale) cache,
failure message `"boom"`, call time 0 and a retry at time 599. -/
theorem c2_failed_fetch_witness :
    (getRows initialCache 0 (.err "boom")).rows = [] ∧
    (getRows (getRows initialCache 0 (.err "boom")).state 599
        (.ok [⟨"Onix", "2021", "R$ 100"⟩])).fetches = 0 := by
  have h := c2_failed_fetch initialCache 0 599 "boom"
    (.ok [⟨"Onix", "2021", "R$ 100"⟩]) (by decide) (by decide)
  exact ⟨h.1, h.2.2.2.1⟩

/-! ### C6 — cache protocol -/

/-- C6: from the initial state the first call runs the body (one fetch);
a second call strictly within the 600-second TTL runs no fetch and
returns the identical snapshot; after `invalidate`, the next call runs
exactly one more fetch whatever the elapsed time. -/
theorem c6_cache_protocol (f1 f2 f3 : FetchOutcome) (t1 t2 t3 : Nat)
    (h12 : t2 < t1 + ttl) :
    (getRows initialCache t1 f1).fetches = 1 ∧
    (getRows (getRows initialCache t1 f1).state t2 f2).fetches = 0 ∧
    (getRows (getRows initialCache t1 f1).state t2 f2).rows
      = (getRows initialCache t1 f1).rows ∧
    (getRows (invalidate (getRows (getRows initialCache t1 f1).state t2 f2).state)
        t3 f3).fetches = 1 := by
  refine ⟨rfl, ?_, ?_, rfl⟩ <;> simp [getRows, initialCache, invalidate, h12]

/-- C6, witness: the protocol at times 0, 10 and 1000000 with a
successful first fetch. -/
theorem c6_cache_protocol_witness :
    (getRows initialCache 0 (.ok [⟨"Onix", "2021", "R$ 100"⟩])).fetches = 1 ∧
    (getRows (getRows initialCache 0 (.ok [⟨"Onix", "2021", "R$ 100"⟩])).state 10
        (.err "later")).fetches = 0 :=
  have h := c6_cache_protocol (.ok [⟨"Onix", "2021", "R$ 100"⟩]) (.err "later")
    (.err "latest") 0 10 1000000 (by decide)
  ⟨h.1, h.2.1⟩

/-! ### C3 — where the registration checks live -/

/-- C3, counterexample: `create_user` itself enforces neither check: called
directly with the 3-character password `"abc"` and the off-list email
`"x@evil.com"`, it succeeds and inserts the record. -/
theorem c3_create_user_no_validation :
    (create_user true ⟨[]⟩ "x@evil.com" "abc" "Eve" 0).1 = .success ∧
    (create_user true ⟨[]⟩ "x@evil.com" "abc" "Eve" 0).2.users
      = [⟨"x@evil.com", ⟨0, "abc"⟩, "Eve"⟩] ∧
    "abc".length < 6 ∧
    allowedDomain "x@evil.com" = false := by
  refine ⟨rfl, rfl, by decide, by decide⟩

/-- C3, amended: the minimum-length and allow-list checks are enforced by
the UI caller `render_register` before it calls `create_user`: a submit
whose password is shorter than 6 characters or whose (lower-cased) email
is off the allow-list leaves the table unchanged and never reaches a
successful creation; `create_user` itself performs no such validation. -/
theorem c3_checks_in_ui (conn : Bool) (db : DB)
    (name email password pc : String) (salt : Nat)
    (h : password.length < 6 ∨ allowedDomain (toLowerStr email) = false) :
    (render_register_submit conn db name email password pc salt).2 = db ∧
    ∀ r : CreateResult,
      (render_register_submit conn db name email password pc salt).1
        ≠ .created r := by
  simp only [render_register_submit]
  by_cases hconn : (!conn) = true
  · rw [if_pos hconn]
    exact ⟨rfl, fun r hr => by cases hr⟩
  · rw [if_neg hconn]
    by_cases hd : (!allowedDomain (toLowerStr email)) = true
    · rw [if_pos hd]
      exact ⟨rfl, fun r hr => by cases hr⟩
    · rw [if_neg hd]
      have hdom : allowedDomain (toLowerStr email) = true := by
        simpa using hd
      have hlen : password.length < 6 := by
        rcases h with h | h
        · exact h
        · rw [h] at hdom; cases hdom
      by_cases hf : (name = "" || toLowerStr email = "" || password = ""
          || pc = "") = true
      · rw [if_pos hf]
        exact ⟨rfl, fun r hr => by cases hr⟩
      · rw [if_neg hf]
        by_cases hne : password ≠ pc
        · rw [if_pos hne]
          exact ⟨rfl, fun r hr => by cases hr⟩
        · rw [if_neg hne, if_pos hlen]
          exact ⟨rfl, fun r hr => by cases hr⟩

/-- C3, witness: the amended behaviour at the concrete submit of the
short password `"abc"` under an allow-listed email. -/
theorem c3_checks_in_ui_witness :
    (render_register_submit true ⟨[]⟩ "Eve" "e@gmail.com" "abc" "abc" 0).2
      = ⟨[]⟩ ∧
    (render_register_submit true ⟨[]⟩ "Eve" "e@gmail.com" "abc" "abc" 0).1
      ≠ .created .success :=
  have h := c3_checks_in_ui true ⟨[]⟩ "Eve" "e@gmail.com" "abc" "abc" 0
    (Or.inl (by decide))
  ⟨h.1, h.2 .success⟩

/-! ### C4 — duplicate registration -/

/-- The two ways `create_user` can go on an open connection: a uniqueness
violation rolled back with the table unchanged, or a committed append. -/
theorem create_user_cases (db : DB) (email p n : String) (s : Nat) :
    (db.users.any (fun u => u.email = email) = true ∧
       create_user true db email p n s = (.duplicate, db)) ∨
    (db.users.any (fun u => u.email = email) = false ∧
       create_user true db email p n s
         = (.success, ⟨db.users ++ [⟨email, hash_password p s, n⟩]⟩)) := by
  by_cases h : db.users.any (fun u => u.email = email) = true
  · exact Or.inl ⟨h, by simp [create_user, h]⟩
  · exact Or.inr ⟨by simpa using h, by simp [create_user, h]⟩

/-- C4: after a successful registration of an email, a second
`create_user` with the same (normalized) email returns the duplicate
failure and leaves the table exactly as it was — the rolled-back insert
leaves no partial record, so in particular the record count is
unchanged. -/
theorem c4_duplicate_registration (db : DB) (email p1 n1 p2 n2 : String)
    (s1 s2 : Nat)
    (h : (create_user true db email p1 n1 s1).1 = .success) :
    (create_user true (create_user true db email p1 n1 s1).2 email p2 n2 s2).1
      = .duplicate ∧
    (create_user true (create_user true db email p1 n1 s1).2 email p2 n2 s2).2
      = (create_user true db email p1 n1 s1).2 := by
  rcases create_user_cases db email p1 n1 s1 with ⟨_, heq⟩ | ⟨hnot, heq⟩
  · rw [heq] at h; cases h
  · rw [heq]
    have hany : (DB.mk (db.users ++ [⟨email, hash_password p1 s1, n1⟩])).users.any
        (fun u => u.email = email) = true := by
      simp
    rcases create_user_cases ⟨db.users ++ [⟨email, hash_password p1 s1, n1⟩]⟩
        email p2 n2 s2 with ⟨_, heq2⟩ | ⟨hnot2, _⟩
    · rw [heq2]; exact ⟨rfl, rfl⟩
    · rw [hany] at hnot2; cases hnot2

/-- C4, witness: registering `"a@gmail.com"` twice into an empty table:
the second call fails as duplicate and the table still holds the single
record of the first call. -/
theorem c4_duplicate_registration_witness :
    (create_user true (create_user true ⟨[]⟩ "a@gmail.com" "secret1" "Ana" 0).2
        "a@gmail.com" "secret2" "Bia" 1).1 = .duplicate ∧
    (create_user true (create_user true ⟨[]⟩ "a@gmail.com" "secret1" "Ana" 0).2
        "a@gmail.com" "secret2" "Bia" 1).2
      = (create_user true ⟨[]⟩ "a@gmail.com" "secret1" "Ana" 0).2 :=
  c4_duplicate_registration ⟨[]⟩ "a@gmail.com" "secret1" "Ana" "secret2" "Bia"
    0 1 rfl

/-! ### Register-then-authenticate helpers (shared by C5 and C7) -/

/-- An email accepted by the allow-list check is nonempty. -/
theorem allowedDomain_ne_empty {e : String} (h : allowedDomain e = true) :
    e ≠ "" := by
  intro h0
  rw [h0] at h
  exact absurd h (by decide)

/-- A password passing the minimum-length check is nonempty. -/
theorem long_password_ne_empty {p : String} (h : 6 ≤ p.length) : p ≠ "" := by
  intro h0
  rw [h0] at h
  exact absurd h (by decide)

/-- A fully valid submit to `render_register` commits exactly one record,
holding the lower-cased email and the salted hash. -/
theorem register_success_shape (db : DB) (name email password pc : String)
    (salt : Nat)
    (hd : allowedDomain (toLowerStr email) = true)
    (hlen : 6 ≤ password.length)
    (hpc : pc = password)
    (hname : name ≠ "")
    (hnodup : db.users.any (fun u => u.email = toLowerStr email) = false) :
    render_register_submit true db name email password pc salt
      = (.created .success,
         ⟨db.users ++ [⟨toLowerStr email, hash_password password salt, name⟩]⟩) := by
  have hemail := allowedDomain_ne_empty hd
  have hpw := long_password_ne_empty hlen
  have hlt : ¬ password.length < 6 := by omega
  subst hpc
  simp [render_register_submit, create_user, hd, hname, hemail, hpw, hlt, hnodup]

/-- After a fully valid registration, logging in with any spelling of the
same email (up to lower-casing) and the same password succeeds, greeting
the stored (lower-cased) email and name. -/
theorem login_after_register (db : DB) (name e1 e2 password pc : String)
    (salt : Nat)
    (hd : allowedDomain (toLowerStr e1) = true)
    (hlen : 6 ≤ password.length)
    (hpc : pc = password)
    (hname : name ≠ "")
    (hnodup : db.users.any (fun u => u.email = toLowerStr e1) = false)
    (he : toLowerStr e2 = toLowerStr e1) :
    render_login_submit true
        (render_register_submit true db name e1 password pc salt).2
        e2 password .normal
      = .success (toLowerStr e1) name := by
  rw [register_success_shape db name e1 password pc salt hd hlen hpc hname hnodup]
  have hemail1 : toLowerStr e1 ≠ "" := allowedDomain_ne_empty hd
  have hemail2 : toLowerStr e2 ≠ "" := by rw [he]; exact hemail1
  have hpw := long_password_ne_empty hlen
  have hnone : db.users.find? (fun u => decide (u.email = toLowerStr e1))
      = none := by
    rw [List.find?_eq_none]
    intro x hx
    have hfalse := List.any_eq_false.mp hnodup x hx
    simpa using hfalse
  simp [render_login_submit, get_user, hemail1, hemail2, hpw, he, hnone,
    verify_password, bcryptCheckpw, bcryptHashpw, hash_password]

/-! ### C5 — round trip and wrong password -/

/-- C5: (a) for every allow-listed email and password of length at least
6, a registration submit succeeds, and logging in with the same
credentials then succeeds; (b) for every stored user whose hash was
produced from some password, logging in with any different password
yields the wrong-password outcome, never success. -/
theorem c5_roundtrip_and_wrong_password :
    (∀ (db : DB) (name email password pc : String) (salt : Nat),
        allowedDomain (toLowerStr email) = true →
        6 ≤ password.length →
        pc = password →
        name ≠ "" →
        db.users.any (fun u => u.email = toLowerStr email) = false →
        (render_register_submit true db name email password pc salt).1
            = .created .success ∧
        render_login_submit true
            (render_register_submit true db name email password pc salt).2
            email password .normal = .success (toLowerStr email) name) ∧
    (∀ (db : DB) (email p p2 : String) (s : Nat) (u : UserRec),
        get_user true db (toLowerStr email) .normal = some u →
        u.passwordHash = hash_password p s →
        p2 ≠ p →
        toLowerStr email ≠ "" →
        p2 ≠ "" →
        render_login_submit true db email p2 .normal = .wrongPassword) := by
  constructor
  · intro db name email password pc salt hd hlen hpc hname hnodup
    refine ⟨?_, login_after_register db name email email password pc salt
      hd hlen hpc hname hnodup rfl⟩
    rw [register_success_shape db name email password pc salt hd hlen hpc
      hname hnodup]
  · intro db email p p2 s u hu hhash hne hemail hp2
    have hver : verify_password p2 u.passwordHash = false := by
      rw [hhash]
      simp [verify_password, bcryptCheckpw, bcryptHashpw, hash_password, hne]
    simp [render_login_submit, hemail, hp2, hu, hver]

/-- C5, witness: registering `"Ana@Gmail.com"` with password `"secret"`
into an empty table then logging in with the same credentials succeeds;
and on the stored record, logging in with `"wrong"` is rejected as a
wrong password. -/
theorem c5_roundtrip_and_wrong_password_witness :
    (render_register_submit true ⟨[]⟩ "Ana" "Ana@Gmail.com" "secret" "secret"
        7).1 = .created .success ∧
    render_login_submit true
        (render_register_submit true ⟨[]⟩ "Ana" "Ana@Gmail.com" "secret"
          "secret" 7).2
        "Ana@Gmail.com" "secret" .normal
      = .success (toLowerStr "Ana@Gmail.com") "Ana" ∧
    render_login_submit true ⟨[⟨"ana@gmail.com", ⟨7, "secret"⟩, "Ana"⟩]⟩
        "ana@gmail.com" "wrong" .normal = .wrongPassword :=
  have ha := c5_roundtrip_and_wrong_password.1 ⟨[]⟩ "Ana" "Ana@Gmail.com"
    "secret" "secret" 7 (by decide) (by decide) rfl (by decide) rfl
  have hb := c5_roundtrip_and_wrong_password.2
    ⟨[⟨"ana@gmail.com", ⟨7, "secret"⟩, "Ana"⟩]⟩ "ana@gmail.com" "secret"
    "wrong" 7 ⟨"ana@gmail.com", ⟨7, "secret"⟩, "Ana"⟩ (by decide) rfl
    (by decide) (by decide) (by decide)
  ⟨ha.1, ha.2, hb⟩

/-! ### C7 — case-insensitive email identity -/

/-- C7: a registration submit with any mixed-case spelling of an
allow-listed email, followed by a login submit with any other casing of
the same email (equal after lower-casing) and the correct password,
succeeds: both forms lower-case the email before storage and lookup. -/
theorem c7_case_insensitive_identity (db : DB)
    (name e1 e2 password pc : String) (salt : Nat)
    (he : toLowerStr e2 = toLowerStr e1)
    (hd : allowedDomain (toLowerStr e1) = true)
    (hlen : 6 ≤ password.length)
    (hpc : pc = password)
    (hname : name ≠ "")
    (hnodup : db.users.any (fun u => u.email = toLowerStr e1) = false) :
    (render_register_submit true db name e1 password pc salt).1
      = .created .success ∧
    render_login_submit true
        (render_register_submit true db name e1 password pc salt).2
        e2 password .normal = .success (toLowerStr e1) name := by
  refine ⟨?_, login_after_register db name e1 e2 password pc salt hd hlen hpc
    hname hnodup he⟩
  rw [register_success_shape db name e1 password pc salt hd hlen hpc hname
    hnodup]

/-- C7, witness: register `"A@Gmail.com"`, then log in as
`"a@GMAIL.com"` with the same password. -/
theorem c7_case_insensitive_identity_witness :
    (render_register_submit true ⟨[]⟩ "Ana" "A@Gmail.com" "secret" "secret"
        3).1 = .created .success ∧
    render_login_submit true
        (render_register_submit true ⟨[]⟩ "Ana" "A@Gmail.com" "secret"
          "secret" 3).2
        "a@GMAIL.com" "secret" .normal
      = .success (toLowerStr "A@Gmail.com") "Ana" :=
  c7_case_insensitive_identity ⟨[]⟩ "Ana" "A@Gmail.com" "a@GMAIL.com"
    "secret" "secret" 3 (by decide) (by decide) (by decide) rfl (by decide)
    rfl

/-! ### C10 — lookup error indistinguishable from NotFound -/

/-- C10: `get_user` returns `none` when the query raises, exactly as when
no record matches; consequently a login submitted while the store fails
produces the same outcome as the same submit against a table with no
matching record at all. -/
theorem c10_lookup_error_as_not_found (conn : Bool) (db : DB)
    (email password msg : String) :
    get_user conn db email (.dbError msg) = none ∧
    render_login_submit conn db email password (.dbError msg)
      = render_login_submit conn ⟨[]⟩ email password .normal := by
  constructor
  · cases conn <;> simp [get_user]
  · cases conn <;> simp [render_login_submit, get_user]

/-! ### C8 — group-by mean ignores null prices -/

/-- C8: on the rows of the claim (model A with price 100, model A with null
price, model B with price 200) the chart aggregation yields mean 100 for
A and 200 for B; and in general a null-priced row contributes nothing to
the mean of any group — appending it changes no mean, which it would
if null were treated as 0. -/
theorem c8_groupby_mean_skips_null :
    df_chart [⟨"A", 0, "", some 100⟩, ⟨"A", 0, "", none⟩,
        ⟨"B", 0, "", some 200⟩]
      = [("A", some 100), ("B", some 200)] ∧
    (∀ (rows : List Row) (r : Row), r.precoNumerico = none →
      ∀ m : String,
        meanOpt (groupPrices (rows ++ [r]) m) = meanOpt (groupPrices rows m)) := by
  constructor
  · simp [df_chart, sortStrings, insertSorted, groupPrices, meanOpt, strLe,
      lexLe]
  · intro rows r hr m
    by_cases hm : r.modelo = m
    · simp [groupPrices, hm, hr]
    · simp [groupPrices, hm]

/-- C8, witness: appending a null-priced model-A row to a table holding
one model-A row priced 100 leaves the mean of model A unchanged. -/
theorem c8_groupby_mean_skips_null_witness :
    meanOpt (groupPrices ([⟨"A", 0, "", some 100⟩] ++ [⟨"A", 0, "", none⟩])
        "A")
      = meanOpt (groupPrices [⟨"A", 0, "", some 100⟩] "A") :=
  c8_groupby_mean_skips_null.2 [⟨"A", 0, "", some 100⟩] ⟨"A", 0, "", none⟩
    rfl "A"

end TesteEstudos
